import Mathlib

/-!
Shallow embedding of `VertexAIImageCaptioner`
(`integrations/google_vertex/.../generators/google_vertex/captioner.py`).

The component is glue around two external dependencies:
* the `vertexai` SDK (`vertexai.init`, `ImageTextModel.from_pretrained`,
  `ImageTextModel.get_captions`, the `Image` wrapper), modelled as an
  explicit environment `Env` plus a client function stored in the
  component, and
* the haystack serialization helpers `default_to_dict` /
  `default_from_dict`, modelled from the spec (section 4.1 of the design
  document): a serialized record carries a `type` identifier plus the
  `init_parameters`, and deserialization checks the type identifier and
  re-runs construction with those parameters.

Python's statefulness is made explicit: construction and `run` return,
next to their result, the list of externally observable effects they
perform (authentication, model loading, caption calls, and the two
effects that the code could perform but does not: cache writes and
content logging).  `run` also returns the component state after the call,
so frame properties are statable.
-/

set_option autoImplicit false

/-- Dynamically typed values, standing for the Python values that appear in
keyword-argument mappings and serialized configuration dictionaries. -/
inductive JValue where
  | str (s : String)
  | num (n : Int)
  | bool (b : Bool)
  | null
  deriving DecidableEq, Repr

/-- The keyword-argument mappings of the Python code (`**kwargs`,
`init_parameters`): association lists from names to values. -/
abbrev Kwargs := List (String × JValue)

/-- The external image representation `vertexai.vision_models.Image`,
built from raw bytes (`Image(image.data)`). -/
structure Image where
  data : List Nat
  deriving DecidableEq, Repr

/-- `haystack.dataclasses.byte_stream.ByteStream`: raw byte payload plus
metadata and mime type, of which `run` reads only `data`. -/
structure ByteStream where
  data : List Nat
  meta : Kwargs
  mime_type : Option String
  deriving DecidableEq, Repr

/-- Errors raised by the captioning call of the underlying client
(the spec's `GenerationError`). -/
abbrev GenerationError := String

/-- The model client handle obtained from
`ImageTextModel.from_pretrained`: its one operation is
`get_captions(image=..., **kwargs)`, which either returns the caption
list or fails. -/
def Client := Image → Kwargs → Except GenerationError (List String)

/-- Externally observable effects of the component.  `cacheWrite` and
`logContent` are effects the component could perform but never does. -/
inductive Effect where
  | authInit (project location : JValue)
  | loadModel (name : JValue)
  | getCaptions (image : Image) (kwargs : Kwargs)
  | cacheWrite (key : String)
  | logContent (msg : String)
  deriving DecidableEq

/-- Errors surfaced by construction: the spec's `AuthenticationError`
(from `vertexai.init`) and `ModelLoadError` (from
`ImageTextModel.from_pretrained`). -/
inductive InitError where
  | authenticationError (msg : String)
  | modelLoadError (msg : String)
  deriving DecidableEq, Repr

/-- Errors surfaced by `from_dict`: the spec's `DeserializationError`, or
any construction error from re-running `__init__`. -/
inductive FromDictError where
  | deserializationError
  | initError (e : InitError)
  deriving DecidableEq, Repr

/-- The external world the component talks to at construction time:
`vertexai.init(project=..., location=...)` and
`ImageTextModel.from_pretrained(name)`. -/
structure Env where
  vertexaiInit : JValue → JValue → Except String Unit
  from_pretrained : JValue → Except String Client

/-- The component state: the four stored configuration fields and the
model client handle, exactly the attributes `__init__` assigns. -/
structure VertexAIImageCaptioner where
  _model_name : JValue
  _project_id : JValue
  _location : JValue
  _kwargs : Kwargs
  _model : Client

/-- The keyword names bound by the dedicated keyword-only parameters of
`__init__(self, *, model, project_id, location, **kwargs)`; every other
keyword ends up in `**kwargs`. -/
def reservedKeys : List String := ["model", "project_id", "location"]

/-- The qualified type identifier haystack stores under `"type"`. -/
def typeName : String :=
  "haystack_integrations.components.generators.google_vertex.captioner.VertexAIImageCaptioner"

/-- Calling `VertexAIImageCaptioner(**params)`: Python binds `model`,
`project_id` and `location` to the dedicated keyword-only parameters
(with defaults `"imagetext"`, `None`, `None`), collects the remaining
entries into `**kwargs`, and runs the `__init__` body, which calls
`vertexai.init(project=project_id, location=location)`, stores the four
configuration fields, and loads the model with
`ImageTextModel.from_pretrained(model)`.  Failures of the two external
calls propagate; the effect trace records what was attempted. -/
def VertexAIImageCaptioner.callInit (env : Env) (params : Kwargs) :
    List Effect × Except InitError VertexAIImageCaptioner :=
  let model := (params.lookup "model").getD (JValue.str "imagetext")
  let project_id := (params.lookup "project_id").getD JValue.null
  let location := (params.lookup "location").getD JValue.null
  let kwargs := params.filter fun p => !reservedKeys.contains p.1
  match env.vertexaiInit project_id location with
  | .error msg =>
      ([Effect.authInit project_id location], .error (.authenticationError msg))
  | .ok _ =>
      match env.from_pretrained model with
      | .error msg =>
          ([Effect.authInit project_id location, Effect.loadModel model],
            .error (.modelLoadError msg))
      | .ok client =>
          ([Effect.authInit project_id location, Effect.loadModel model],
            .ok ⟨model, project_id, location, kwargs, client⟩)

/-- The serialized representation produced by haystack's
`default_to_dict`: the `"type"` entry (optional, so that inputs missing
it are representable) and the `"init_parameters"` mapping (a missing one
defaults to the empty mapping). -/
structure SerializedData where
  type : Option JValue
  init_parameters : Kwargs
  deriving DecidableEq, Repr

/-- `to_dict`: `default_to_dict(self, model=self._model_name,
project_id=self._project_id, location=self._location, **self._kwargs)`.
Modelled from the spec: `default_to_dict` itself is a haystack helper not
in this repository; per the spec it records the component's type
identifier and the given init parameters. -/
def VertexAIImageCaptioner.to_dict (c : VertexAIImageCaptioner) : SerializedData :=
  { type := some (JValue.str typeName)
    init_parameters :=
      [("model", c._model_name), ("project_id", c._project_id),
        ("location", c._location)] ++ c._kwargs }

/-- Modelled from the spec: haystack's `default_from_dict` (not in this
repository) fails with a `DeserializationError` when the `"type"` entry
is missing or does not name this component, and otherwise re-runs
construction with the stored `init_parameters`. -/
def default_from_dict (env : Env) (data : SerializedData) :
    List Effect × Except FromDictError VertexAIImageCaptioner :=
  match data.type with
  | none => ([], .error .deserializationError)
  | some t =>
      if t = JValue.str typeName then
        match VertexAIImageCaptioner.callInit env data.init_parameters with
        | (tr, .ok c) => (tr, .ok c)
        | (tr, .error e) => (tr, .error (.initError e))
      else
        ([], .error .deserializationError)

/-- `from_dict`: `return default_from_dict(cls, data)`. -/
def VertexAIImageCaptioner.from_dict (env : Env) (data : SerializedData) :
    List Effect × Except FromDictError VertexAIImageCaptioner :=
  default_from_dict env data

/-- `run`: `captions = self._model.get_captions(image=Image(image.data),
**self._kwargs); return {"captions": captions}`.  The returned triple is
the component state after the call, the effect trace, and the result (the
output dictionary, or the propagated client failure). -/
def VertexAIImageCaptioner.run (c : VertexAIImageCaptioner) (image : ByteStream) :
    VertexAIImageCaptioner × List Effect ×
      Except GenerationError (List (String × List String)) :=
  match c._model ⟨image.data⟩ c._kwargs with
  | .error e => (c, [Effect.getCaptions ⟨image.data⟩ c._kwargs], .error e)
  | .ok captions =>
      (c, [Effect.getCaptions ⟨image.data⟩ c._kwargs], .ok [("captions", captions)])

/-! ### Concrete stubs used by the witnesses -/

/-- A stub client that always returns `["a", "b"]`. -/
def stubClient : Client := fun _ _ => .ok ["a", "b"]

/-- A stub client configured to raise on call. -/
def failingClient : Client := fun _ _ => .error "generation failed"

/-- A stub environment whose authentication and model loading succeed. -/
def stubEnv : Env :=
  { vertexaiInit := fun _ _ => .ok ()
    from_pretrained := fun _ => .ok stubClient }

/-- A stub environment whose model loader raises "model not found". -/
def badLoaderEnv : Env :=
  { vertexaiInit := fun _ _ => .ok ()
    from_pretrained := fun _ => .error "model not found" }

/-- A sample constructed component with one extra option. -/
def sampleCaptioner : VertexAIImageCaptioner :=
  { _model_name := JValue.str "imagetext"
    _project_id := JValue.null
    _location := JValue.str "us-central-1"
    _kwargs := [("number_of_results", JValue.num 3)]
    _model := stubClient }

/-- The sample component with the failing stub client. -/
def failingCaptioner : VertexAIImageCaptioner :=
  { sampleCaptioner with _model := failingClient }

/-! ### Helper lemmas -/

/-- A kwargs mapping free of the reserved keyword names is untouched by
the filter that `callInit` applies to split off `**kwargs`. -/
theorem filter_reserved_eq_self {kw : Kwargs} (h : ∀ p ∈ kw, p.1 ∉ reservedKeys) :
    (kw.filter fun p => !reservedKeys.contains p.1) = kw := by
  rw [List.filter_eq_self]
  intro a ha
  simpa [reservedKeys] using h a ha

/-! ### Claims about `run` -/

/-- C2: when the client's captioning call returns a list of caption
strings, `run(image)` returns a mapping with exactly one key,
`"captions"`, whose value is that list unchanged and in order. -/
theorem run_returns_captions (c : VertexAIImageCaptioner) (image : ByteStream)
    (captions : List String)
    (h : c._model ⟨image.data⟩ c._kwargs = .ok captions) :
    (c.run image).2.2 = .ok [("captions", captions)] := by
  simp [VertexAIImageCaptioner.run, h]

/-- C2 witness: a stub client that always returns `["a", "b"]` makes
`run` return `{"captions": ["a", "b"]}` on a non-empty payload. -/
theorem run_returns_captions_witness :
    sampleCaptioner._model ⟨[7, 8, 9]⟩ sampleCaptioner._kwargs = .ok ["a", "b"] ∧
    (sampleCaptioner.run ⟨[7, 8, 9], [], none⟩).2.2 =
      .ok [("captions", ["a", "b"])] :=
  ⟨rfl, run_returns_captions sampleCaptioner ⟨[7, 8, 9], [], none⟩ ["a", "b"] rfl⟩

/-- C3: when the client's captioning call fails, `run` propagates the
failure unmodified, having invoked the call exactly once (the whole
effect trace is that single call) and produced no partial result. -/
theorem run_propagates_error (c : VertexAIImageCaptioner) (image : ByteStream)
    (e : GenerationError)
    (h : c._model ⟨image.data⟩ c._kwargs = .error e) :
    (c.run image).2 = ([Effect.getCaptions ⟨image.data⟩ c._kwargs], .error e) := by
  simp [VertexAIImageCaptioner.run, h]

/-- C3 witness: a stub client configured to raise has its error
propagated without transformation. -/
theorem run_propagates_error_witness :
    failingCaptioner._model ⟨[1]⟩ failingCaptioner._kwargs =
      .error "generation failed" ∧
    (failingCaptioner.run ⟨[1], [], none⟩).2 =
      ([Effect.getCaptions ⟨[1]⟩ [("number_of_results", JValue.num 3)]],
        .error "generation failed") :=
  ⟨rfl, run_propagates_error failingCaptioner ⟨[1], [], none⟩ "generation failed" rfl⟩

/-- C4: every `run(image)` call invokes the client exactly once, passing
the stored extra options unchanged together with the wrapped image
payload `Image(image.data)`. -/
theorem run_forwards_kwargs (c : VertexAIImageCaptioner) (image : ByteStream) :
    (c.run image).2.1 = [Effect.getCaptions ⟨image.data⟩ c._kwargs] := by
  cases h : c._model ⟨image.data⟩ c._kwargs <;>
    simp [VertexAIImageCaptioner.run, h]

/-- C8: `run` leaves the component state exactly as it was, and its
effect trace contains no cache write and no content logging. -/
theorem run_preserves_state (c : VertexAIImageCaptioner) (image : ByteStream) :
    (c.run image).1 = c ∧
    ∀ k, Effect.cacheWrite k ∉ (c.run image).2.1 ∧
      Effect.logContent k ∉ (c.run image).2.1 := by
  cases h : c._model ⟨image.data⟩ c._kwargs <;>
    simp [VertexAIImageCaptioner.run, h]

/-- C9: `run` reads only the raw byte payload of the `ByteStream`: two
inputs with equal `data` yield identical calls, traces and results,
whatever their mime type or metadata. -/
theorem run_depends_only_on_data (c : VertexAIImageCaptioner)
    (i1 i2 : ByteStream) (h : i1.data = i2.data) :
    c.run i1 = c.run i2 := by
  simp only [VertexAIImageCaptioner.run, h]

/-- C9 witness: two byte streams sharing a payload but differing in mime
type and metadata produce the same `run` outcome. -/
theorem run_depends_only_on_data_witness :
    (ByteStream.mk [1, 2] [] none).data =
      (ByteStream.mk [1, 2] [("source", JValue.str "cam")] (some "image/png")).data ∧
    sampleCaptioner.run ⟨[1, 2], [], none⟩ =
      sampleCaptioner.run ⟨[1, 2], [("source", JValue.str "cam")], some "image/png"⟩ :=
  ⟨rfl, run_depends_only_on_data sampleCaptioner _ _ rfl⟩

/-- Successful construction, characterized: when authentication and model
loading succeed, `callInit` emits exactly one authentication effect and
one load effect and builds the component from the bound keyword
parameters, the filtered `**kwargs`, and the freshly loaded client. -/
theorem callInit_ok (env : Env) (params : Kwargs) (client : Client)
    (hauth : env.vertexaiInit ((params.lookup "project_id").getD JValue.null)
      ((params.lookup "location").getD JValue.null) = .ok ())
    (hload : env.from_pretrained ((params.lookup "model").getD (JValue.str "imagetext")) =
      .ok client) :
    VertexAIImageCaptioner.callInit env params =
      ([Effect.authInit ((params.lookup "project_id").getD JValue.null)
          ((params.lookup "location").getD JValue.null),
        Effect.loadModel ((params.lookup "model").getD (JValue.str "imagetext"))],
        .ok ⟨(params.lookup "model").getD (JValue.str "imagetext"),
          (params.lookup "project_id").getD JValue.null,
          (params.lookup "location").getD JValue.null,
          params.filter fun p => !reservedKeys.contains p.1, client⟩) := by
  simp [VertexAIImageCaptioner.callInit, hauth, hload]

/-! ### Claims about construction and serialization -/

/-- C5: when the model loader fails (for instance raising "model not
found"), construction surfaces that failure as a `ModelLoadError` and
produces no component instance. -/
theorem init_surfaces_model_load_failure (env : Env) (params : Kwargs) (msg : String)
    (hauth : env.vertexaiInit ((params.lookup "project_id").getD JValue.null)
      ((params.lookup "location").getD JValue.null) = .ok ())
    (hload : env.from_pretrained ((params.lookup "model").getD (JValue.str "imagetext")) =
      .error msg) :
    (VertexAIImageCaptioner.callInit env params).2 =
      .error (InitError.modelLoadError msg) := by
  simp [VertexAIImageCaptioner.callInit, hauth, hload]

/-- C5 witness: an unknown model name against a loader that raises
"model not found" makes construction fail with a `ModelLoadError`. -/
theorem init_surfaces_model_load_failure_witness :
    badLoaderEnv.vertexaiInit JValue.null JValue.null = .ok () ∧
    badLoaderEnv.from_pretrained (JValue.str "missing-model") = .error "model not found" ∧
    (VertexAIImageCaptioner.callInit badLoaderEnv
        [("model", JValue.str "missing-model")]).2 =
      .error (InitError.modelLoadError "model not found") :=
  ⟨rfl, rfl, init_surfaces_model_load_failure badLoaderEnv
    [("model", JValue.str "missing-model")] "model not found" rfl rfl⟩

/-- C7: when the serialized input's type identifier is absent or does not
name this component, `from_dict` fails with a `DeserializationError`,
performing no effect and returning no component. -/
theorem from_dict_bad_type_fails (env : Env) (data : SerializedData)
    (h : data.type ≠ some (JValue.str typeName)) :
    VertexAIImageCaptioner.from_dict env data =
      ([], .error FromDictError.deserializationError) := by
  cases hd : data.type with
  | none => simp [VertexAIImageCaptioner.from_dict, default_from_dict, hd]
  | some t =>
      have ht : ¬t = JValue.str typeName := fun he => h (by rw [hd, he])
      simp [VertexAIImageCaptioner.from_dict, default_from_dict, hd, ht]

/-- C7 witness: deserializing a record with no type identifier fails with
a `DeserializationError`. -/
theorem from_dict_bad_type_fails_witness :
    (SerializedData.mk none []).type ≠ some (JValue.str typeName) ∧
    VertexAIImageCaptioner.from_dict stubEnv (SerializedData.mk none []) =
      ([], .error FromDictError.deserializationError) :=
  ⟨by decide, from_dict_bad_type_fails stubEnv (SerializedData.mk none []) (by decide)⟩

/-- C6: `from_dict` reconstructs by re-running construction in full: its
effect trace is exactly one fresh authentication followed by one fresh
model load, and the client handle of the result is the one the
environment returns at that moment, never data restored from the
serialized record.  The trace being emitted anew on each call, repeated
`from_dict` calls re-authenticate every time, with no caching. -/
theorem from_dict_reruns_construction (env : Env) (data : SerializedData)
    (pid loc m : JValue) (client : Client)
    (hpid : pid = (data.init_parameters.lookup "project_id").getD JValue.null)
    (hloc : loc = (data.init_parameters.lookup "location").getD JValue.null)
    (hm : m = (data.init_parameters.lookup "model").getD (JValue.str "imagetext"))
    (htype : data.type = some (JValue.str typeName))
    (hauth : env.vertexaiInit pid loc = .ok ())
    (hload : env.from_pretrained m = .ok client) :
    (VertexAIImageCaptioner.from_dict env data).1 =
      [Effect.authInit pid loc, Effect.loadModel m] ∧
    ∃ c, (VertexAIImageCaptioner.from_dict env data).2 = Except.ok c ∧
      c._model = client := by
  subst hpid hloc hm
  have hcall := callInit_ok env data.init_parameters client hauth hload
  simp [VertexAIImageCaptioner.from_dict, default_from_dict, htype, hcall]

/-- A sample serialized record with the right type identifier. -/
def sampleData : SerializedData :=
  ⟨some (JValue.str typeName),
    [("model", JValue.str "imagetext"), ("location", JValue.str "europe-west1")]⟩

/-- C6 witness: deserializing a concrete record authenticates and loads
the model afresh and installs the environment's client. -/
theorem from_dict_reruns_construction_witness :
    sampleData.type = some (JValue.str typeName) ∧
    stubEnv.vertexaiInit JValue.null (JValue.str "europe-west1") = .ok () ∧
    stubEnv.from_pretrained (JValue.str "imagetext") = .ok stubClient ∧
    ((VertexAIImageCaptioner.from_dict stubEnv sampleData).1 =
      [Effect.authInit JValue.null (JValue.str "europe-west1"),
        Effect.loadModel (JValue.str "imagetext")] ∧
    ∃ c, (VertexAIImageCaptioner.from_dict stubEnv sampleData).2 = Except.ok c ∧
      c._model = stubClient) :=
  ⟨rfl, rfl, rfl, from_dict_reruns_construction stubEnv sampleData
    JValue.null (JValue.str "europe-west1") (JValue.str "imagetext") stubClient
    rfl rfl rfl rfl rfl rfl⟩

/-- C1: for a valid configuration (its extra options never use the
reserved keyword names, which Python's keyword binding makes impossible
anyway), `to_dict` records the component's type identifier, and
`from_dict(to_dict(c))` reconstructs a component whose `model`,
`project_id`, `location` and extra options all equal those of `c`. -/
theorem to_dict_from_dict_roundtrip (env : Env) (c : VertexAIImageCaptioner)
    (client : Client)
    (hkw : ∀ p ∈ c._kwargs, p.1 ∉ reservedKeys)
    (hauth : env.vertexaiInit c._project_id c._location = .ok ())
    (hload : env.from_pretrained c._model_name = .ok client) :
    c.to_dict.type = some (JValue.str typeName) ∧
    (VertexAIImageCaptioner.from_dict env c.to_dict).2 =
      Except.ok ⟨c._model_name, c._project_id, c._location, c._kwargs, client⟩ := by
  refine ⟨rfl, ?_⟩
  have em : (c.to_dict.init_parameters.lookup "model").getD (JValue.str "imagetext")
      = c._model_name := rfl
  have ep : (c.to_dict.init_parameters.lookup "project_id").getD JValue.null
      = c._project_id := rfl
  have el : (c.to_dict.init_parameters.lookup "location").getD JValue.null
      = c._location := rfl
  have ek : (c.to_dict.init_parameters.filter fun p => !reservedKeys.contains p.1)
      = c._kwargs := filter_reserved_eq_self hkw
  have htype : c.to_dict.type = some (JValue.str typeName) := rfl
  have hcall := callInit_ok env c.to_dict.init_parameters client
    (by rw [ep, el]; exact hauth) (by rw [em]; exact hload)
  rw [em, ep, el, ek] at hcall
  simp [VertexAIImageCaptioner.from_dict, default_from_dict, htype, hcall]

/-- C1 witness: the sample component with one extra option round-trips
through `to_dict` and `from_dict` with every configuration field kept. -/
theorem to_dict_from_dict_roundtrip_witness :
    (∀ p ∈ sampleCaptioner._kwargs, p.1 ∉ reservedKeys) ∧
    stubEnv.vertexaiInit sampleCaptioner._project_id sampleCaptioner._location = .ok () ∧
    stubEnv.from_pretrained sampleCaptioner._model_name = .ok stubClient ∧
    (sampleCaptioner.to_dict.type = some (JValue.str typeName) ∧
      (VertexAIImageCaptioner.from_dict stubEnv sampleCaptioner.to_dict).2 =
        Except.ok ⟨sampleCaptioner._model_name, sampleCaptioner._project_id,
          sampleCaptioner._location, sampleCaptioner._kwargs, stubClient⟩) :=
  ⟨by decide, rfl, rfl,
    to_dict_from_dict_roundtrip stubEnv sampleCaptioner stubClient (by decide) rfl rfl⟩

/-- Keyword parameters under which `builtCaptioner` is constructed. -/
def sampleParams : Kwargs :=
  [("model", JValue.str "m"), ("number_of_results", JValue.num 3)]

/-- The component `callInit stubEnv sampleParams` produces. -/
def builtCaptioner : VertexAIImageCaptioner :=
  ⟨JValue.str "m", JValue.null, JValue.null,
    [("number_of_results", JValue.num 3)], stubClient⟩

/-- C10: every component that construction produces has an extra-options
mapping free of the reserved keyword names `model`, `project_id` and
`location`; `run` preserves this invariant, and it makes the key list of
`to_dict`'s merged init-parameter mapping duplicate-free. -/
theorem construction_excludes_reserved_keys (env : Env) (params : Kwargs)
    (tr : List Effect) (c : VertexAIImageCaptioner)
    (h : VertexAIImageCaptioner.callInit env params = (tr, Except.ok c))
    (hnd : (params.map Prod.fst).Nodup) :
    (∀ p ∈ c._kwargs, p.1 ∉ reservedKeys) ∧
    (∀ image, ∀ p ∈ ((c.run image).1)._kwargs, p.1 ∉ reservedKeys) ∧
    (c.to_dict.init_parameters.map Prod.fst).Nodup := by
  have hkw : c._kwargs = params.filter fun p => !reservedKeys.contains p.1 := by
    simp only [VertexAIImageCaptioner.callInit] at h
    cases ha : env.vertexaiInit ((params.lookup "project_id").getD JValue.null)
        ((params.lookup "location").getD JValue.null) with
    | error msg => rw [ha] at h; simp at h
    | ok u =>
        rw [ha] at h
        cases hl : env.from_pretrained ((params.lookup "model").getD (JValue.str "imagetext")) with
        | error msg => rw [hl] at h; simp at h
        | ok client =>
            rw [hl] at h
            simp only [Prod.mk.injEq, Except.ok.injEq] at h
            rw [← h.2]
  have hfree : ∀ p ∈ c._kwargs, p.1 ∉ reservedKeys := by
    intro p hp
    rw [hkw] at hp
    have hmem := List.mem_filter.mp hp
    simpa [reservedKeys] using hmem.2
  have hrun : ∀ image : ByteStream, (c.run image).1 = c := by
    intro image
    cases h' : c._model ⟨image.data⟩ c._kwargs <;>
      simp [VertexAIImageCaptioner.run, h']
  have hknd : (c._kwargs.map Prod.fst).Nodup := by
    rw [hkw]
    exact hnd.sublist (List.Sublist.map Prod.fst (List.filter_sublist params))
  have hres : ∀ s ∈ reservedKeys, s ∉ c._kwargs.map Prod.fst := by
    intro s hs hsmem
    obtain ⟨p, hp, hps⟩ := List.mem_map.mp hsmem
    exact hfree p hp (hps ▸ hs)
  refine ⟨hfree, fun image => by rw [hrun image]; exact hfree, ?_⟩
  have h1 : "model" ∉ c._kwargs.map Prod.fst := hres "model" (by simp [reservedKeys])
  have h2 : "project_id" ∉ c._kwargs.map Prod.fst := hres "project_id" (by simp [reservedKeys])
  have h3 : "location" ∉ c._kwargs.map Prod.fst := hres "location" (by simp [reservedKeys])
  show (("model" : String) :: "project_id" :: "location" :: c._kwargs.map Prod.fst).Nodup
  simp [List.nodup_cons, hknd, h1, h2, h3]

/-- C10 witness: a concrete construction call with one extra option
yields a component whose extra options avoid the reserved names, keep
avoiding them across `run`, and serialize without key duplication. -/
theorem construction_excludes_reserved_keys_witness :
    VertexAIImageCaptioner.callInit stubEnv sampleParams =
      ([Effect.authInit JValue.null JValue.null, Effect.loadModel (JValue.str "m")],
        Except.ok builtCaptioner) ∧
    (sampleParams.map Prod.fst).Nodup ∧
    ((∀ p ∈ builtCaptioner._kwargs, p.1 ∉ reservedKeys) ∧
      (∀ image, ∀ p ∈ ((builtCaptioner.run image).1)._kwargs, p.1 ∉ reservedKeys) ∧
      (builtCaptioner.to_dict.init_parameters.map Prod.fst).Nodup) :=
  ⟨rfl, by decide, construction_excludes_reserved_keys stubEnv sampleParams
    [Effect.authInit JValue.null JValue.null, Effect.loadModel (JValue.str "m")]
    builtCaptioner rfl (by decide)⟩
